import Mathlib

/-!
Shallow embedding of `src/main.rs` of the `egui-example` repository: a
single-window egui + wgpu + winit application.  The program is one event-loop
closure over mutable state (`first_resize_happened`, `screen_descriptor`,
`config`, `control_flow`); we embed that closure as a step function
`handleEvent : AppState → WinEvent → AppState × List Op`, where the `List Op`
records, in program order, the calls the closure makes into its external
collaborators (egui context, wgpu surface/queue, winit window).

External collaborators (the egui context's frame output, the success of
`surface.get_current_texture()`, the `pixels_per_point` value computed by
`egui_winit`, the repaint decision of `winit_state.on_window_event`) are
inputs the program merely receives; they travel as payloads of the events.
Floating-point scale factors are only stored and copied, never computed with,
so they are represented by an opaque `Nat`.
-/

namespace EguiExample

/-- egui `Color32` (premultiplied sRGBA, four `u8` channels). -/
structure Color32 where
  r : Nat
  g : Nat
  b : Nat
  a : Nat
deriving DecidableEq, Repr

/-- `Color32::TRANSPARENT`. -/
def Color32.TRANSPARENT : Color32 := ⟨0, 0, 0, 0⟩

/-- `Color32::RED`. -/
def Color32.RED : Color32 := ⟨255, 0, 0, 255⟩

/-- `Color32::BLUE`. -/
def Color32.BLUE : Color32 := ⟨0, 0, 255, 255⟩

/-- The fields of egui `Visuals` that `main.rs` sets explicitly (the rest are
`..Default::default()` and are not modelled). -/
structure Visuals where
  window_fill : Color32
  panel_fill : Color32
  override_text_color : Option Color32
  faint_bg_color : Color32
  extreme_bg_color : Color32
deriving DecidableEq, Repr

/-- The `Visuals` literal passed to `context.set_visuals` in the redraw arm. -/
def appVisuals : Visuals :=
  { window_fill := Color32.TRANSPARENT
    panel_fill := Color32.TRANSPARENT
    override_text_color := some Color32.RED
    faint_bg_color := Color32.RED
    extreme_bg_color := Color32.BLUE }

/-- wgpu `Color` (four `f64` channels; only the all-zero constant
`Color::TRANSPARENT` occurs in the program, so `Nat` channels suffice). -/
structure WColor where
  r : Nat
  g : Nat
  b : Nat
  a : Nat
deriving DecidableEq, Repr

/-- `wgpu::Color::TRANSPARENT` (all channels `0.0`). -/
def WColor.TRANSPARENT : WColor := ⟨0, 0, 0, 0⟩

/-- wgpu `LoadOp<Color>`. -/
inductive WLoadOp where
  | Clear (color : WColor)
  | Load
deriving DecidableEq, Repr

/-- wgpu `StoreOp`. -/
inductive WStoreOp where
  | Store
  | Discard
deriving DecidableEq, Repr

/-- wgpu `Operations<Color>`. -/
structure WOperations where
  load : WLoadOp
  store : WStoreOp
deriving DecidableEq, Repr

/-- wgpu `RenderPassColorAttachment`.  The `view` field of the source points
at the texture view created from the acquired surface frame; frame identity
carries no data in this embedding, so the field is a unit tag recording that
the attachment targets the acquired surface view. -/
structure RenderPassColorAttachment where
  view : Unit
  ops : WOperations
  resolve_target : Option Unit
deriving DecidableEq, Repr

/-- The parts of wgpu `RenderPassDescriptor` the program fills in. -/
structure RenderPassDescriptor where
  color_attachments : List (Option RenderPassColorAttachment)
  depth_stencil_attachment : Option Unit
deriving DecidableEq, Repr

/-- The render-pass descriptor literal built in the redraw arm of `main.rs`
(lines 140–154). -/
def appRenderPassDescriptor : RenderPassDescriptor :=
  { color_attachments :=
      [some { view := ()
              ops := { load := WLoadOp.Clear WColor.TRANSPARENT
                       store := WStoreOp.Store }
              resolve_target := none }]
    depth_stencil_attachment := none }

/-- egui `TexturesDelta`: `set` lists textures to upload (id paired with an
opaque image delta), `free` lists texture ids to release. -/
structure TexturesDelta where
  set : List (Nat × Nat)
  free : List Nat
deriving DecidableEq, Repr

/-- egui `FullOutput` as used by the program: tessellation input (`shapes`,
opaque), the texture delta, and the target `pixels_per_point`. -/
structure FrameOutput where
  shapes : List Nat
  textures_delta : TexturesDelta
  pixels_per_point : Nat
deriving DecidableEq, Repr

/-- `egui_wgpu::renderer::ScreenDescriptor`: pixel size and scale factor.
`pixels_per_point` is an `f32` in the source; the program only stores values
received from `winit`/`egui_winit`, so it is opaque here. -/
structure ScreenDescriptor where
  size_in_pixels : Nat × Nat
  pixels_per_point : Nat
deriving DecidableEq, Repr

/-- The surface configuration obtained from `surface.get_default_config` and
mutated on resize.  Only `width` and `height` are ever written by the
program; the format (and the other default fields) are chosen once by the
adapter and never touched, represented by the opaque `format`. -/
structure SurfaceConfiguration where
  format : Nat
  width : Nat
  height : Nat
deriving DecidableEq, Repr

/-- Process status: `running` while the event loop runs; `exited code` after
`*control_flow = ControlFlow::ExitWithCode(code)`; `panicked msg` after an
`expect(msg)` fails. -/
inductive Status where
  | running
  | exited (code : Nat)
  | panicked (msg : String)
deriving DecidableEq, Repr

/-- The mutable state captured by the event-loop closure in `run`. -/
structure AppState where
  first_resize_happened : Bool
  screen_descriptor : ScreenDescriptor
  config : SurfaceConfiguration
  status : Status
deriving DecidableEq, Repr

/-- One platform event as dispatched by `event_loop.run`, carrying the
responses of the external collaborators consulted while handling it:
a redraw event carries whether `surface.get_current_texture()` succeeds and
the `FullOutput` the egui context returns from `end_frame`; a resize event
carries the new size and the `egui_winit::pixels_per_point` value; an other
window event carries the `repaint` flag returned by
`winit_state.on_window_event`. -/
inductive WinEvent where
  | RedrawRequested (acquireOk : Bool) (out : FrameOutput)
  | Resized (width : Nat) (height : Nat) (ppp : Nat)
  | CloseRequested
  | Other (repaint : Bool)
deriving DecidableEq, Repr

/-- One observable call into an external collaborator, in program order. -/
inductive Op where
  | takeEguiInput
  | beginFrame
  | setVisuals (v : Visuals)
  | buildUi
  | endFrame
  | acquireFrame
  | createView
  | createEncoder
  | tessellate
  | updateTexture (id : Nat)
  | freeTexture (id : Nat)
  | updateBuffers
  | beginRenderPass (desc : RenderPassDescriptor)
  | render
  | submit
  | present
  | configureSurface (width : Nat) (height : Nat)
  | requestRedraw
  | onWindowEvent
deriving DecidableEq, Repr

/-- The trace of a successful redraw cycle (`Event::RedrawRequested` arm,
lines 84–162): egui input/frame protocol, surface acquisition, texture
uploads for every entry of `textures_delta.set` in order, buffer update,
render pass, submit, present.  The source never touches
`textures_delta.free`, so no `freeTexture` op is ever emitted. -/
def redrawOps (out : FrameOutput) : List Op :=
  [Op.takeEguiInput, Op.beginFrame, Op.setVisuals appVisuals, Op.buildUi,
   Op.endFrame, Op.acquireFrame, Op.createView, Op.createEncoder,
   Op.tessellate]
  ++ out.textures_delta.set.map (fun p => Op.updateTexture p.1)
  ++ [Op.updateBuffers, Op.beginRenderPass appRenderPassDescriptor,
      Op.render, Op.submit, Op.present]

/-- The trace of a redraw cycle whose `get_current_texture()` fails: the
egui frame runs to `end_frame`, the acquisition is attempted, and the
`expect` panics before any GPU work. -/
def redrawFailOps : List Op :=
  [Op.takeEguiInput, Op.beginFrame, Op.setVisuals appVisuals, Op.buildUi,
   Op.endFrame, Op.acquireFrame]

/-- The `expect` message on `surface.get_current_texture()` (line 112). -/
def acquirePanicMsg : String := "Failed to acquire next swap chain texture"

/-- The body of the event-loop closure (`match event { ... }`,
lines 83–198), as a function from state and event to new state plus the
trace of external calls made while handling the event. -/
def handleEvent (s : AppState) (e : WinEvent) : AppState × List Op :=
  match e with
  | WinEvent.RedrawRequested acquireOk out =>
      if acquireOk then
        (s, redrawOps out)
      else
        ({ s with status := Status.panicked acquirePanicMsg }, redrawFailOps)
  | WinEvent.Resized w h ppp =>
      if !s.first_resize_happened then
        ({ s with first_resize_happened := true }, [])
      else
        ({ s with
            screen_descriptor :=
              { size_in_pixels := (w, h), pixels_per_point := ppp }
            config :=
              { s.config with width := max w 1, height := max h 1 } },
         [Op.configureSurface (max w 1) (max h 1), Op.requestRedraw])
  | WinEvent.CloseRequested =>
      ({ s with status := Status.exited 0 }, [])
  | WinEvent.Other repaint =>
      (s, if repaint then [Op.onWindowEvent, Op.requestRedraw]
          else [Op.onWindowEvent])

/-- One step of the event loop: the closure runs only while the loop is
running; after `ControlFlow::ExitWithCode` or a panic the loop delivers no
further events. -/
def step (s : AppState) (e : WinEvent) : AppState × List Op :=
  if s.status = Status.running then handleEvent s e else (s, [])

/-- Run the event loop over a list of events, accumulating the trace. -/
def runEvents (s : AppState) : List WinEvent → AppState × List Op
  | [] => (s, [])
  | e :: es =>
      let r := step s e
      let r2 := runEvents r.1 es
      (r2.1, r.2 ++ r2.2)

/-- The state at the start of the event loop (`run`, lines 11–74): the
window's inner size `(w, h)` is clamped to a 1×1 minimum for the surface
configuration (lines 12–14, 51–53) but stored raw in the screen descriptor
(lines 67–70); `ppp` is `window.scale_factor()`; `fmt` is the format chosen
by `get_default_config`; `first_resize_happened` is
`cfg!(not(target_os = "windows"))` (line 74). -/
def initState (w h ppp fmt : Nat) (isWindows : Bool) : AppState :=
  { first_resize_happened := !isWindows
    screen_descriptor := { size_in_pixels := (w, h), pixels_per_point := ppp }
    config := { format := fmt, width := max w 1, height := max h 1 }
    status := Status.running }

/-- A frame output with no shapes and an empty texture delta; used for
concrete instantiations. -/
def emptyFrameOutput : FrameOutput :=
  { shapes := [], textures_delta := { set := [], free := [] },
    pixels_per_point := 1 }

/-- A frame output whose texture delta removes texture id 7 (and uploads
id 3); used as a concrete counterexample input. -/
def freeingFrameOutput : FrameOutput :=
  { shapes := [], textures_delta := { set := [(3, 5)], free := [7] },
    pixels_per_point := 1 }

/-- Once the loop has exited or the process panicked, no event is processed
and the state never changes again. -/
theorem runEvents_halted (s : AppState) (h : s.status ≠ Status.running)
    (es : List WinEvent) : runEvents s es = (s, []) := by
  induction es with
  | nil => rfl
  | cons e es ih => simp [runEvents, step, h, ih]

/-- One step never decreases a surface configuration already of size ≥ 1
below 1 in either dimension. -/
theorem step_preserves_min_size (s : AppState) (e : WinEvent)
    (h1 : 1 ≤ s.config.width) (h2 : 1 ≤ s.config.height) :
    1 ≤ (step s e).1.config.width ∧ 1 ≤ (step s e).1.config.height := by
  by_cases hs : s.status = Status.running
  · cases e with
    | RedrawRequested ok out =>
        cases ok <;> simp [step, hs, handleEvent] <;> exact ⟨h1, h2⟩
    | Resized w h ppp =>
        cases hf : s.first_resize_happened <;>
          simp [step, hs, handleEvent, hf]
        exact ⟨h1, h2⟩
    | CloseRequested => simp [step, hs, handleEvent]; exact ⟨h1, h2⟩
    | Other repaint => simp [step, hs, handleEvent]; exact ⟨h1, h2⟩
  · simp [step, hs]; exact ⟨h1, h2⟩

/-- C2: for every sequence of resize (and other) events, including requests
with width or height 0, the surface configuration's width and height stay
at least 1: zero-size requests are clamped by `max 1`, never rejected. -/
theorem C2_config_dimensions_at_least_one (w h ppp fmt : Nat)
    (isWindows : Bool) (es : List WinEvent) :
    1 ≤ (runEvents (initState w h ppp fmt isWindows) es).1.config.width
    ∧ 1 ≤ (runEvents (initState w h ppp fmt isWindows) es).1.config.height := by
  have key : ∀ (es : List WinEvent) (s : AppState),
      1 ≤ s.config.width → 1 ≤ s.config.height →
      1 ≤ (runEvents s es).1.config.width
      ∧ 1 ≤ (runEvents s es).1.config.height := by
    intro es
    induction es with
    | nil => intro s h1 h2; exact ⟨h1, h2⟩
    | cons e es ih =>
        intro s h1 h2
        have hstep := step_preserves_min_size s e h1 h2
        simpa [runEvents] using ih (step s e).1 hstep.1 hstep.2
  exact key es _ (Nat.le_max_right _ _) (Nat.le_max_right _ _)

/-- C10: a resize event that arrives while the suppression flag is false is
dropped: the only state change is the flag becoming true; the screen
descriptor and the surface configuration are untouched, no external call is
made (in particular the surface is not reconfigured and no redraw is
requested). -/
theorem C10_suppressed_resize_only_sets_flag (s : AppState) (w h ppp : Nat)
    (h1 : s.status = Status.running) (h2 : s.first_resize_happened = false) :
    step s (WinEvent.Resized w h ppp)
      = ({ s with first_resize_happened := true }, []) := by
  simp [step, h1, handleEvent, h2]

/-- Witness for C10 at a concrete state and resize request. -/
theorem C10_suppressed_resize_only_sets_flag_witness :
    step (initState 800 600 1 0 true) (WinEvent.Resized 123 456 7)
      = ({ initState 800 600 1 0 true with first_resize_happened := true },
         []) :=
  C10_suppressed_resize_only_sets_flag _ 123 456 7 rfl rfl

/-- C9: a non-suppressed resize stores the raw event dimensions in the
screen descriptor without clamping: after a resize to (0, 0) the screen
descriptor holds (0, 0) while the surface configuration holds 1×1. -/
theorem C9_screen_descriptor_unclamped (s : AppState) (w h ppp : Nat)
    (h1 : s.status = Status.running) (h2 : s.first_resize_happened = true) :
    (step s (WinEvent.Resized w h ppp)).1.screen_descriptor.size_in_pixels
      = (w, h)
    ∧ (step s (WinEvent.Resized 0 0 ppp)).1.screen_descriptor.size_in_pixels
      = (0, 0)
    ∧ (step s (WinEvent.Resized 0 0 ppp)).1.config.width = 1
    ∧ (step s (WinEvent.Resized 0 0 ppp)).1.config.height = 1 := by
  simp [step, h1, handleEvent, h2]

/-- Witness for C9 at a concrete state, including the (0, 0) request. -/
theorem C9_screen_descriptor_unclamped_witness :
    (step (initState 800 600 1 0 false)
        (WinEvent.Resized 0 0 1)).1.screen_descriptor.size_in_pixels = (0, 0)
    ∧ (step (initState 800 600 1 0 false)
        (WinEvent.Resized 0 0 1)).1.config.width = 1
    ∧ (step (initState 800 600 1 0 false)
        (WinEvent.Resized 0 0 1)).1.config.height = 1 :=
  ⟨(C9_screen_descriptor_unclamped (initState 800 600 1 0 false) 0 0 1
      rfl rfl).1,
   (C9_screen_descriptor_unclamped (initState 800 600 1 0 false) 0 0 1
      rfl rfl).2.2.1,
   (C9_screen_descriptor_unclamped (initState 800 600 1 0 false) 0 0 1
      rfl rfl).2.2.2⟩

/-- C6: a resize event received while the suppression flag is true updates
the screen descriptor, clamps the new dimensions to a minimum of 1 for the
surface configuration, reconfigures the surface, and requests a redraw. -/
theorem C6_resize_reconfigures (s : AppState) (w h ppp : Nat)
    (h1 : s.status = Status.running) (h2 : s.first_resize_happened = true) :
    (step s (WinEvent.Resized w h ppp)).1.screen_descriptor
      = { size_in_pixels := (w, h), pixels_per_point := ppp }
    ∧ (step s (WinEvent.Resized w h ppp)).1.config
      = { s.config with width := max w 1, height := max h 1 }
    ∧ 1 ≤ (step s (WinEvent.Resized w h ppp)).1.config.width
    ∧ 1 ≤ (step s (WinEvent.Resized w h ppp)).1.config.height
    ∧ (step s (WinEvent.Resized w h ppp)).2
      = [Op.configureSurface (max w 1) (max h 1), Op.requestRedraw] := by
  refine ⟨?_, ?_, ?_, ?_, ?_⟩ <;> simp [step, h1, handleEvent, h2]

/-- Witness for C6 at a concrete state and a 400×300 resize. -/
theorem C6_resize_reconfigures_witness :
    (step (initState 800 600 1 0 false)
        (WinEvent.Resized 400 300 2)).1.screen_descriptor
      = { size_in_pixels := (400, 300), pixels_per_point := 2 }
    ∧ (step (initState 800 600 1 0 false) (WinEvent.Resized 400 300 2)).2
      = [Op.configureSurface (max 400 1) (max 300 1), Op.requestRedraw] :=
  ⟨(C6_resize_reconfigures (initState 800 600 1 0 false) 400 300 2
      rfl rfl).1,
   (C6_resize_reconfigures (initState 800 600 1 0 false) 400 300 2
      rfl rfl).2.2.2.2⟩

/-- C7: a close-requested event in any running state sets the control flow
to exit with code 0; afterwards no event (in particular no redraw or
resize) is processed and the state never changes. -/
theorem C7_close_requested_terminates (s : AppState)
    (h1 : s.status = Status.running) :
    (step s WinEvent.CloseRequested).1 = { s with status := Status.exited 0 }
    ∧ (step s WinEvent.CloseRequested).2 = []
    ∧ ∀ es, runEvents (step s WinEvent.CloseRequested).1 es
        = ((step s WinEvent.CloseRequested).1, []) := by
  have hstep : step s WinEvent.CloseRequested
      = ({ s with status := Status.exited 0 }, []) := by
    simp [step, h1, handleEvent]
  refine ⟨by rw [hstep], by rw [hstep], fun es => ?_⟩
  rw [hstep]
  exact runEvents_halted _ (by simp) es

/-- Witness for C7: after close at a concrete state, resize and redraw
events are ignored. -/
theorem C7_close_requested_terminates_witness :
    runEvents (step (initState 800 600 1 0 false)
        WinEvent.CloseRequested).1
      [WinEvent.Resized 400 300 1,
       WinEvent.RedrawRequested true emptyFrameOutput]
      = ((step (initState 800 600 1 0 false) WinEvent.CloseRequested).1,
         []) :=
  (C7_close_requested_terminates (initState 800 600 1 0 false) rfl).2.2 _

/-- C1: the resize-suppression flag starts true on non-Windows platforms
and false on Windows; while the flag is false a resize event is dropped
without touching the surface configuration and flips the flag to true;
while the flag is true a resize event reconfigures the surface; and the
flag never returns to false, so every resize after the first one
reconfigures. -/
theorem C1_resize_suppression :
    (∀ w h ppp fmt,
        (initState w h ppp fmt false).first_resize_happened = true)
    ∧ (∀ w h ppp fmt,
        (initState w h ppp fmt true).first_resize_happened = false)
    ∧ (∀ (s : AppState) (w h ppp : Nat), s.status = Status.running →
        s.first_resize_happened = false →
        (step s (WinEvent.Resized w h ppp)).1.config = s.config
        ∧ (step s (WinEvent.Resized w h ppp)).1.first_resize_happened = true
        ∧ (step s (WinEvent.Resized w h ppp)).2 = [])
    ∧ (∀ (s : AppState) (w h ppp : Nat), s.status = Status.running →
        s.first_resize_happened = true →
        (step s (WinEvent.Resized w h ppp)).1.config
          = { s.config with width := max w 1, height := max h 1 }
        ∧ Op.configureSurface (max w 1) (max h 1)
            ∈ (step s (WinEvent.Resized w h ppp)).2)
    ∧ (∀ (s : AppState) (e : WinEvent), s.first_resize_happened = true →
        (step s e).1.first_resize_happened = true) := by
  refine ⟨fun w h ppp fmt => rfl, fun w h ppp fmt => rfl, ?_, ?_, ?_⟩
  · intro s w h ppp h1 h2
    simp [step, h1, handleEvent, h2]
  · intro s w h ppp h1 h2
    simp [step, h1, handleEvent, h2]
  · intro s e hf
    by_cases hs : s.status = Status.running
    · cases e with
      | RedrawRequested ok out =>
          cases ok <;> simp [step, hs, handleEvent, hf]
      | Resized w h ppp => simp [step, hs, handleEvent, hf]
      | CloseRequested => simp [step, hs, handleEvent, hf]
      | Other repaint => simp [step, hs, handleEvent, hf]
    · simp [step, hs, hf]

/-- Witness for C1: on a Windows-like initial state the first resize leaves
the configuration unchanged and a second resize reconfigures it. -/
theorem C1_resize_suppression_witness :
    (step (initState 800 600 1 0 true)
        (WinEvent.Resized 800 600 1)).1.config
      = (initState 800 600 1 0 true).config
    ∧ (step (step (initState 800 600 1 0 true)
          (WinEvent.Resized 800 600 1)).1
        (WinEvent.Resized 400 300 1)).1.config
      = { (step (initState 800 600 1 0 true)
            (WinEvent.Resized 800 600 1)).1.config with
          width := max 400 1, height := max 300 1 } :=
  ⟨(C1_resize_suppression.2.2.1 (initState 800 600 1 0 true) 800 600 1
      rfl rfl).1,
   (C1_resize_suppression.2.2.2.1 _ 400 300 1 rfl
      (C1_resize_suppression.2.2.1 (initState 800 600 1 0 true) 800 600 1
        rfl rfl).2.1).1⟩

/-- C3 as stated is false: at a concrete state, a redraw whose surface
acquisition fails leaves the process not running (it panicked), and a
subsequent resize event is not processed (the configuration cannot be
re-established), contradicting "the process keeps running" and "the next
resize/redraw event can re-establish a valid surface". -/
theorem C3_counterexample :
    (runEvents (initState 800 600 1 0 true)
        [WinEvent.RedrawRequested false emptyFrameOutput]).1.status
      ≠ Status.running
    ∧ (runEvents (initState 800 600 1 0 true)
        [WinEvent.RedrawRequested false emptyFrameOutput,
         WinEvent.Resized 400 300 1,
         WinEvent.Resized 400 300 1]).1.config
      = (initState 800 600 1 0 true).config := by
  decide

/-- C3 amended: per-frame surface acquisition failure is fatal, not
recoverable: the `expect` panics with "Failed to acquire next swap chain
texture", the redraw cycle stops before any submit or present, and no
further event is ever processed. -/
theorem C3_acquire_failure_fatal (s : AppState) (out : FrameOutput)
    (h1 : s.status = Status.running) :
    (step s (WinEvent.RedrawRequested false out)).1.status
      = Status.panicked acquirePanicMsg
    ∧ Op.submit ∉ (step s (WinEvent.RedrawRequested false out)).2
    ∧ Op.present ∉ (step s (WinEvent.RedrawRequested false out)).2
    ∧ ∀ es, runEvents (step s (WinEvent.RedrawRequested false out)).1 es
        = ((step s (WinEvent.RedrawRequested false out)).1, []) := by
  have hstep : step s (WinEvent.RedrawRequested false out)
      = ({ s with status := Status.panicked acquirePanicMsg },
         redrawFailOps) := by
    simp [step, h1, handleEvent]
  refine ⟨by rw [hstep], by rw [hstep]; simp [redrawFailOps],
    by rw [hstep]; simp [redrawFailOps], fun es => ?_⟩
  rw [hstep]
  exact runEvents_halted _ (by simp) es

/-- Witness for C3 amended at a concrete state and frame output. -/
theorem C3_acquire_failure_fatal_witness :
    (step (initState 800 600 1 0 false)
        (WinEvent.RedrawRequested false emptyFrameOutput)).1.status
      = Status.panicked acquirePanicMsg
    ∧ runEvents (step (initState 800 600 1 0 false)
        (WinEvent.RedrawRequested false emptyFrameOutput)).1
        [WinEvent.Resized 400 300 1]
      = ((step (initState 800 600 1 0 false)
          (WinEvent.RedrawRequested false emptyFrameOutput)).1, []) :=
  ⟨(C3_acquire_failure_fatal (initState 800 600 1 0 false)
      emptyFrameOutput rfl).1,
   (C3_acquire_failure_fatal (initState 800 600 1 0 false)
      emptyFrameOutput rfl).2.2.2 _⟩

/-- C4 as stated is false: at a concrete redraw whose texture delta removes
texture id 7, no release of texture 7 is ever scheduled (the trace contains
no free call at all). -/
theorem C4_counterexample :
    7 ∈ freeingFrameOutput.textures_delta.free
    ∧ Op.freeTexture 7 ∉
        (step (initState 800 600 1 0 false)
          (WinEvent.RedrawRequested true freeingFrameOutput)).2 := by
  decide

/-- C4 amended: during GPU submission every *added* texture in the delta is
uploaded via `update_texture`, but removed texture ids are ignored: the
program never schedules any texture release. -/
theorem C4_texture_delta_handling (s : AppState) (out : FrameOutput)
    (h1 : s.status = Status.running) :
    (∀ p ∈ out.textures_delta.set,
        Op.updateTexture p.1
          ∈ (step s (WinEvent.RedrawRequested true out)).2)
    ∧ ∀ i, Op.freeTexture i
        ∉ (step s (WinEvent.RedrawRequested true out)).2 := by
  have hstep : (step s (WinEvent.RedrawRequested true out)).2
      = redrawOps out := by
    simp [step, h1, handleEvent]
  rw [hstep]
  constructor
  · intro p hp
    simp only [redrawOps]
    refine List.mem_append_left _ (List.mem_append_right _ ?_)
    exact List.mem_map.mpr ⟨p, hp, rfl⟩
  · intro i
    simp [redrawOps]

/-- Witness for C4 amended at a concrete state and texture delta. -/
theorem C4_texture_delta_handling_witness :
    Op.updateTexture 3
      ∈ (step (initState 800 600 1 0 false)
          (WinEvent.RedrawRequested true freeingFrameOutput)).2
    ∧ Op.freeTexture 7
      ∉ (step (initState 800 600 1 0 false)
          (WinEvent.RedrawRequested true freeingFrameOutput)).2 :=
  ⟨(C4_texture_delta_handling (initState 800 600 1 0 false)
      freeingFrameOutput rfl).1 (3, 5) (by decide),
   (C4_texture_delta_handling (initState 800 600 1 0 false)
      freeingFrameOutput rfl).2 7⟩

/-- C5: on a redraw-request event (with successful acquisition), the
operations happen in order: take staged egui input, begin the UI frame,
build the UI content, end the UI frame, acquire the presentable frame,
submit the GPU commands, present the frame. -/
theorem C5_redraw_order (s : AppState) (out : FrameOutput)
    (h1 : s.status = Status.running) :
    List.Sublist
      [Op.takeEguiInput, Op.beginFrame, Op.buildUi, Op.endFrame,
       Op.acquireFrame, Op.submit, Op.present]
      (step s (WinEvent.RedrawRequested true out)).2 := by
  have hstep : (step s (WinEvent.RedrawRequested true out)).2
      = redrawOps out := by
    simp [step, h1, handleEvent]
  rw [hstep]
  unfold redrawOps
  rw [List.append_assoc]
  have hpre : List.Sublist
      [Op.takeEguiInput, Op.beginFrame, Op.buildUi, Op.endFrame,
       Op.acquireFrame]
      [Op.takeEguiInput, Op.beginFrame, Op.setVisuals appVisuals,
       Op.buildUi, Op.endFrame, Op.acquireFrame, Op.createView,
       Op.createEncoder, Op.tessellate] := by decide
  have hpost : List.Sublist [Op.submit, Op.present]
      [Op.updateBuffers, Op.beginRenderPass appRenderPassDescriptor,
       Op.render, Op.submit, Op.present] := by decide
  exact hpre.append (hpost.trans (List.sublist_append_right _ _))

/-- Witness for C5 at a concrete state and frame output. -/
theorem C5_redraw_order_witness :
    List.Sublist
      [Op.takeEguiInput, Op.beginFrame, Op.buildUi, Op.endFrame,
       Op.acquireFrame, Op.submit, Op.present]
      (step (initState 800 600 1 0 false)
        (WinEvent.RedrawRequested true freeingFrameOutput)).2 :=
  C5_redraw_order (initState 800 600 1 0 false) freeingFrameOutput rfl

/-- C8: every render pass opened in any trace of the program uses a single
color attachment on the acquired surface view with a clear-to-transparent
load, a store that retains contents, no resolve target, and no
depth/stencil attachment. -/
theorem C8_render_pass_descriptor (s : AppState) (e : WinEvent)
    (d : RenderPassDescriptor)
    (hmem : Op.beginRenderPass d ∈ (step s e).2) :
    d.color_attachments
      = [some { view := ()
                ops := { load := WLoadOp.Clear WColor.TRANSPARENT
                         store := WStoreOp.Store }
                resolve_target := none }]
    ∧ d.depth_stencil_attachment = none := by
  have hd : d = appRenderPassDescriptor := by
    by_cases hs : s.status = Status.running
    · cases e with
      | RedrawRequested ok out =>
          cases ok
          · simp [step, hs, handleEvent, redrawFailOps] at hmem
          · simp [step, hs, handleEvent, redrawOps] at hmem
            exact hmem
      | Resized w h ppp =>
          cases hf : s.first_resize_happened <;>
            simp [step, hs, handleEvent, hf] at hmem
      | CloseRequested => simp [step, hs, handleEvent] at hmem
      | Other repaint =>
          cases repaint <;> simp [step, hs, handleEvent] at hmem
    · simp [step, hs] at hmem
  rw [hd]
  exact ⟨rfl, rfl⟩

/-- Witness for C8: a concrete redraw trace contains a render pass, and its
descriptor has the stated attachments. -/
theorem C8_render_pass_descriptor_witness :
    appRenderPassDescriptor.color_attachments
      = [some { view := ()
                ops := { load := WLoadOp.Clear WColor.TRANSPARENT
                         store := WStoreOp.Store }
                resolve_target := none }]
    ∧ appRenderPassDescriptor.depth_stencil_attachment = none :=
  C8_render_pass_descriptor (initState 800 600 1 0 false)
    (WinEvent.RedrawRequested true emptyFrameOutput)
    appRenderPassDescriptor (by decide)

end EguiExample
